import Mathlib

/-!
Verification of the F1 tyre-degradation pipeline.

The development shallowly embeds the two core components of the repository:

* `F1DataCollector.calculate_degradation_metrics`
  (src/app/data_collection/fastf1_collector.py): per-stint derived metrics
  over lap records (baseline first-lap time, delta from baseline, trailing
  3-lap rolling average, OLS degradation slope).
* `F1DataLoader` (src/scripts/load_data.py): entity resolution
  (get-or-create for circuits, teams, drivers, races), chunked batch loading
  of lap/weather fact rows with `ON CONFLICT DO NOTHING`, and pit-stop
  loading with a plain `INSERT`.

Lap times and other measurements are modelled as exact rationals; a pandas
`NaN` / missing CSV value is modelled as `none`.
-/

namespace F1

/-- A raw lap record as consumed by `calculate_degradation_metrics`: only the
columns that function reads (`driver`, `stint`, `lap_number`,
`lap_time_seconds`, `tyre_life`).  `none` models a pandas `NaN`. -/
structure Lap where
  driver : String
  stint : Nat
  lap_number : Nat
  lap_time_seconds : Option ℚ
  tyre_life : Option ℚ
deriving DecidableEq, Repr

/-- A lap enriched with the four derived columns the calculator adds. -/
structure MetricLap where
  lap : Lap
  stint_first_lap_time : Option ℚ
  time_delta_from_first : Option ℚ
  lap_time_rolling_avg : Option ℚ
  degradation_rate : ℚ
deriving DecidableEq, Repr

/-- `lap_data.dropna(subset=['lap_time_seconds'])` followed by
`lap_data[lap_data['lap_time_seconds'] > 0]` (collect_race_lap_data,
"Clean data" step). -/
def cleanLapData (rows : List Lap) : List Lap :=
  (rows.filter (fun r => r.lap_time_seconds.isSome)).filter
    (fun r => match r.lap_time_seconds with
      | some t => decide (0 < t)
      | none => false)

/-- Sort key of `sort_values(['driver', 'stint', 'lap_number'])`:
lexicographic on (driver, stint, lap_number). -/
def lapSortKey (l : Lap) : String ×ₗ (Nat ×ₗ Nat) :=
  toLex (l.driver, toLex (l.stint, l.lap_number))

/-- The order used by `sort_values(['driver', 'stint', 'lap_number'])`. -/
def lapLeAll (a b : Lap) : Prop := lapSortKey a ≤ lapSortKey b

/-- Executable form of `lapLeAll` (string comparison spelt out on the
character lists so the kernel can evaluate it). -/
def lapLeb (a b : Lap) : Bool :=
  decide (a.driver.toList < b.driver.toList) ||
    (decide (a.driver = b.driver) &&
      (decide (a.stint < b.stint) ||
        (decide (a.stint = b.stint) && decide (a.lap_number ≤ b.lap_number))))

theorem lapLeAll_iff (a b : Lap) : lapLeAll a b ↔ lapLeb a b = true := by
  unfold lapLeAll lapLeb lapSortKey
  rw [Prod.Lex.le_iff, Prod.Lex.le_iff]
  simp [String.lt_iff_toList_lt]

instance : DecidableRel lapLeAll := fun a b =>
  decidable_of_iff _ (lapLeAll_iff a b).symm

/-- `lap_data.sort_values(['driver', 'stint', 'lap_number'])`. -/
def sortLapsAll (laps : List Lap) : List Lap :=
  List.insertionSort lapLeAll laps

/-- The groupby key comparison: two laps fall in the same
`groupby(['driver', 'stint'])` group iff driver and stint agree. -/
def keyEq (a b : Lap) : Bool :=
  a.driver == b.driver && a.stint == b.stint

/-- Fuelled worker for `groupRuns`; any fuel of at least the list's length
produces the run decomposition (the recursion consumes at least one element
per step). -/
def groupRunsF : Nat → List Lap → List (List Lap)
  | _, [] => []
  | 0, _ :: _ => []
  | n + 1, x :: xs =>
    (x :: xs.takeWhile (fun y => keyEq x y)) ::
      groupRunsF n (xs.dropWhile (fun y => keyEq x y))

/-- Split a (sorted) list into its maximal runs of `keyEq`-equal laps.  On
the output of `sortLapsAll` this is exactly `groupby(['driver', 'stint'])`:
equal keys are contiguous after sorting, so the groups are the runs. -/
def groupRuns (l : List Lap) : List (List Lap) :=
  groupRunsF l.length l

/-- The stint groups the calculator iterates over. -/
def stintGroups (laps : List Lap) : List (List Lap) :=
  groupRuns (sortLapsAll laps)

/-- pandas `transform('first')` on a grouped column: the first non-null
value of the group (GroupBy.first skips NA). -/
def firstNonNull (xs : List (Option ℚ)) : Option ℚ := xs.findSome? id

/-- Mean over the non-null entries of a window; `none` when every entry is
null (`min_periods=1` makes a window with zero observations yield NaN). -/
def optMean (ws : List (Option ℚ)) : Option ℚ :=
  let vs := ws.filterMap id
  if vs.isEmpty then none else some (vs.sum / vs.length)

/-- Mean of one trailing window of width 3. -/
def winMean (a b c : Option ℚ) : Option ℚ := optMean [a, b, c]

/-- `x.rolling(3, min_periods=1).mean()`, carrying the two previous cells of
the series; positions before the start of the series behave exactly like
null cells, so they are carried as `none`. -/
def rollingAux : Option ℚ → Option ℚ → List (Option ℚ) → List (Option ℚ)
  | _, _, [] => []
  | a, b, x :: xs => winMean a b x :: rollingAux b x xs

/-- The rolling 3-lap average column of one stint group. -/
def rollingMean3 (xs : List (Option ℚ)) : List (Option ℚ) :=
  rollingAux none none xs

/-- The `(tyre_life, lap_time_seconds)` pairs of a stint with both fields
present — `group[['tyre_life', 'lap_time_seconds']].dropna()`. -/
def validPairs (g : List Lap) : List (ℚ × ℚ) :=
  g.filterMap (fun l =>
    match l.tyre_life, l.lap_time_seconds with
    | some x, some y => some (x, y)
    | _, _ => none)

/-- Ordinary-least-squares slope of `scipy.stats.linregress`:
`Σ (x-x̄)(y-ȳ) / Σ (x-x̄)²` over the valid pairs. -/
def olsSlope (ps : List (ℚ × ℚ)) : ℚ :=
  let n : ℚ := ps.length
  let xbar : ℚ := (ps.map Prod.fst).sum / n
  let ybar : ℚ := (ps.map Prod.snd).sum / n
  ((ps.map (fun p => (p.1 - xbar) * (p.2 - ybar))).sum) /
    ((ps.map (fun p => (p.1 - xbar) * (p.1 - xbar))).sum)

/-- `calc_degradation_rate(group)`: 0 for groups shorter than 2, 0 when
fewer than 2 valid pairs remain after `dropna`, else the regression slope;
the result is broadcast to the whole group. -/
def calcDegradationRate (g : List Lap) : ℚ :=
  if g.length < 2 then 0
  else if (validPairs g).length < 2 then 0
  else olsSlope (validPairs g)

/-- The body of `calculate_degradation_metrics` for one stint group `g`
(already in lap-number order, as the groups of the sorted frame are):
baseline `transform('first')`, delta from baseline, rolling 3-lap mean and
the broadcast degradation slope. -/
def calcMetricsGroup (g : List Lap) : List MetricLap :=
  let base := firstNonNull (g.map (fun l => l.lap_time_seconds))
  let rate := calcDegradationRate g
  (g.zip (rollingMean3 (g.map (fun l => l.lap_time_seconds)))).map fun p =>
    { lap := p.1
      stint_first_lap_time := base
      time_delta_from_first :=
        match p.1.lap_time_seconds, base with
        | some t, some b => some (t - b)
        | _, _ => none
      lap_time_rolling_avg := p.2
      degradation_rate := rate }

/-- `F1DataCollector.calculate_degradation_metrics`: sort by
(driver, stint, lap_number), group by (driver, stint), enrich each group. -/
def calculate_degradation_metrics (laps : List Lap) : List MetricLap :=
  ((stintGroups laps).map calcMetricsGroup).flatten

end F1

namespace F1

instance : IsTotal Lap lapLeAll :=
  ⟨fun a b => le_total (lapSortKey a) (lapSortKey b)⟩

instance : IsTrans Lap lapLeAll :=
  ⟨fun _ _ _ hab hbc => le_trans hab hbc⟩

theorem validPairs_length_le (g : List Lap) : (validPairs g).length ≤ g.length := by
  unfold validPairs
  exact List.length_filterMap_le _ _

theorem calcDegradationRate_eq (g : List Lap) :
    calcDegradationRate g =
      if 2 ≤ (validPairs g).length then olsSlope (validPairs g) else 0 := by
  have h0 := validPairs_length_le g
  unfold calcDegradationRate
  split_ifs <;> first | rfl | omega

theorem degradation_rate_of_mem {g : List Lap} {m : MetricLap}
    (hm : m ∈ calcMetricsGroup g) : m.degradation_rate = calcDegradationRate g := by
  unfold calcMetricsGroup at hm
  simp only [List.mem_map] at hm
  obtain ⟨p, _, rfl⟩ := hm
  rfl

theorem stint_first_of_mem {g : List Lap} {m : MetricLap}
    (hm : m ∈ calcMetricsGroup g) :
    m.stint_first_lap_time = firstNonNull (g.map (fun l => l.lap_time_seconds)) := by
  unfold calcMetricsGroup at hm
  simp only [List.mem_map] at hm
  obtain ⟨p, _, rfl⟩ := hm
  rfl

/-- The two-lap stint of the spec's degradation-rate example:
`(tyre_life, lap_time)` pairs (1, 90.0) and (2, 91.0). -/
def c1Laps : List Lap :=
  [ { driver := "VER", stint := 1, lap_number := 1,
      lap_time_seconds := some 90, tyre_life := some 1 },
    { driver := "VER", stint := 1, lap_number := 2,
      lap_time_seconds := some 91, tyre_life := some 2 } ]

end F1

namespace F1

/-- The enriched first lap of `c1Laps`, used to instantiate witnesses. -/
def c1Metric1 : MetricLap :=
  { lap := { driver := "VER", stint := 1, lap_number := 1,
             lap_time_seconds := some 90, tyre_life := some 1 }
    stint_first_lap_time := some 90
    time_delta_from_first := some 0
    lap_time_rolling_avg := some 90
    degradation_rate := 1 }

theorem c1Metric1_mem : c1Metric1 ∈ calcMetricsGroup c1Laps := by
  have : calcMetricsGroup c1Laps =
      [ c1Metric1,
        { lap := { driver := "VER", stint := 1, lap_number := 2,
                   lap_time_seconds := some 91, tyre_life := some 2 }
          stint_first_lap_time := some 90
          time_delta_from_first := some 1
          lap_time_rolling_avg := some (181 / 2)
          degradation_rate := 1 } ] := by
    simp [calcMetricsGroup, calcDegradationRate, validPairs, olsSlope, rollingMean3,
      rollingAux, winMean, optMean, firstNonNull, c1Laps, c1Metric1]
    norm_num
  rw [this]
  exact List.mem_cons_self _ _

/-- C1.  Inside the calculator, every lap of every stint group carries
`degradation_rate` equal to the OLS slope of `lap_time_seconds` against
`tyre_life` over the group's valid pairs when at least 2 such pairs exist,
and 0 otherwise; the rate is one stint-level constant, identical on every
lap of the group; and the stint with pairs (1, 90.0) and (2, 91.0) gets
degradation_rate = 1.0 on every lap. -/
theorem c1_degradation_rate_ols :
    (∀ laps g m, g ∈ stintGroups laps → m ∈ calcMetricsGroup g →
      m.degradation_rate =
        if 2 ≤ (validPairs g).length then olsSlope (validPairs g) else 0)
  ∧ (∀ laps g m₁ m₂, g ∈ stintGroups laps → m₁ ∈ calcMetricsGroup g →
      m₂ ∈ calcMetricsGroup g → m₁.degradation_rate = m₂.degradation_rate)
  ∧ (calculate_degradation_metrics c1Laps).map (fun m => m.degradation_rate) = [1, 1] := by
  refine ⟨fun laps g m _ hm => ?_, fun laps g m₁ m₂ _ h₁ h₂ => ?_, ?_⟩
  · rw [degradation_rate_of_mem hm, calcDegradationRate_eq]
  · rw [degradation_rate_of_mem h₁, degradation_rate_of_mem h₂]
  · simp +decide [calculate_degradation_metrics, stintGroups, sortLapsAll, groupRuns,
      groupRunsF, calcMetricsGroup, calcDegradationRate, validPairs, olsSlope, rollingMean3,
      rollingAux, winMean, optMean, firstNonNull, c1Laps, List.insertionSort,
      List.orderedInsert, keyEq]
    norm_num

/-- Witness for C1: the first clause applied to the concrete stint
`c1Laps` and its concrete first enriched lap. -/
theorem c1_degradation_rate_ols_witness :
    c1Metric1.degradation_rate =
      if 2 ≤ (validPairs c1Laps).length then olsSlope (validPairs c1Laps) else 0 :=
  c1_degradation_rate_ols.1 c1Laps c1Laps c1Metric1 (by decide) c1Metric1_mem

end F1

namespace F1

theorem groupRunsF_shape : ∀ (n : Nat) (l : List Lap) (g : List Lap),
    g ∈ groupRunsF n l →
    ∃ x run, g = x :: run ∧ ∀ y ∈ run, keyEq x y = true := by
  intro n
  induction n with
  | zero => intro l g hg; cases l <;> simp [groupRunsF] at hg
  | succ n ih =>
    intro l g hg
    cases l with
    | nil => simp [groupRunsF] at hg
    | cons x xs =>
      simp only [groupRunsF, List.mem_cons] at hg
      rcases hg with rfl | hg
      · exact ⟨x, _, rfl, fun y hy => List.mem_takeWhile_imp hy⟩
      · exact ih _ g hg

theorem groupRunsF_sublist : ∀ (n : Nat) (l : List Lap) (g : List Lap),
    g ∈ groupRunsF n l → g.Sublist l := by
  intro n
  induction n with
  | zero => intro l g hg; cases l <;> simp [groupRunsF] at hg
  | succ n ih =>
    intro l g hg
    cases l with
    | nil => simp [groupRunsF] at hg
    | cons x xs =>
      simp only [groupRunsF, List.mem_cons] at hg
      rcases hg with rfl | hg
      · exact (List.takeWhile_sublist _).cons₂ x
      · exact ((ih _ g hg).trans (List.dropWhile_sublist _)).cons x

theorem le_of_lapLeAll_keyEq {a b : Lap} (h : lapLeAll a b) (hk : keyEq a b = true) :
    a.lap_number ≤ b.lap_number := by
  unfold keyEq at hk
  simp only [Bool.and_eq_true, beq_iff_eq] at hk
  obtain ⟨hd, hs⟩ := hk
  unfold lapLeAll lapSortKey at h
  rw [Prod.Lex.le_iff] at h
  rcases h with h | ⟨-, h⟩
  · rw [hd] at h; exact absurd h (lt_irrefl _)
  · rw [Prod.Lex.le_iff] at h
    rcases h with h | ⟨-, h⟩
    · rw [hs] at h; exact absurd h (lt_irrefl _)
    · exact h

/-- The two-lap stint of the baseline example: the second lap (88 s) is
faster than the first (90 s), so the first-lap baseline differs from the
minimum. -/
def c2Laps : List Lap :=
  [ { driver := "VER", stint := 1, lap_number := 1,
      lap_time_seconds := some 90, tyre_life := some 1 },
    { driver := "VER", stint := 1, lap_number := 2,
      lap_time_seconds := some 88, tyre_life := some 2 } ]

/-- C2.  For every stint group of the calculator with at least one lap (all
lap times present, as guaranteed by the collector's cleaning step),
`stint_first_lap_time` on every lap equals the lap_time of the lap with the
lowest lap_number of the group — not the stint's minimum lap time, as the
concrete stint [90, 88] shows (baseline 90 on both laps). -/
theorem c2_stint_first_lap_time :
    (∀ laps g, g ∈ stintGroups laps → g ≠ [] →
      (∀ l ∈ g, l.lap_time_seconds.isSome = true) →
      ∃ l₀ ∈ g, (∀ l ∈ g, l₀.lap_number ≤ l.lap_number) ∧
        ∀ m ∈ calcMetricsGroup g, m.stint_first_lap_time = l₀.lap_time_seconds)
  ∧ (calculate_degradation_metrics c2Laps).map (fun m => m.stint_first_lap_time)
      = [some 90, some 90] := by
  constructor
  · intro laps g hg _ hsome
    obtain ⟨x, run, rfl, hkey⟩ := groupRunsF_shape _ _ _ hg
    refine ⟨x, List.mem_cons_self _ _, ?_, ?_⟩
    · intro l hl
      rcases List.mem_cons.mp hl with rfl | hl
      · exact le_refl _
      · have hsorted : List.Sorted lapLeAll (sortLapsAll laps) :=
          List.sorted_insertionSort _ _
        have hpw : (x :: run).Pairwise lapLeAll :=
          List.Pairwise.sublist (groupRunsF_sublist _ _ _ hg) hsorted
        exact le_of_lapLeAll_keyEq (List.rel_of_pairwise_cons hpw hl) (hkey l hl)
    · intro m hm
      rw [stint_first_of_mem hm]
      obtain ⟨t, ht⟩ := Option.isSome_iff_exists.mp (hsome x (List.mem_cons_self _ _))
      simp [firstNonNull, ht]
  · simp +decide [calculate_degradation_metrics, stintGroups, sortLapsAll, groupRuns,
      groupRunsF, calcMetricsGroup, calcDegradationRate, validPairs, olsSlope, rollingMean3,
      rollingAux, winMean, optMean, firstNonNull, c2Laps, List.insertionSort,
      List.orderedInsert, keyEq]

/-- Witness for C2: the first clause applied to the concrete stint `c2Laps`. -/
theorem c2_stint_first_lap_time_witness :
    ∃ l₀ ∈ c2Laps, (∀ l ∈ c2Laps, l₀.lap_number ≤ l.lap_number) ∧
      ∀ m ∈ calcMetricsGroup c2Laps, m.stint_first_lap_time = l₀.lap_time_seconds :=
  c2_stint_first_lap_time.1 c2Laps c2Laps (by decide) (by decide) (by decide)

end F1

namespace F1

/-- The spec-side trailing window average: arithmetic mean of the present
values among the window of at most 3 entries ending at position `i`
(`none` when every entry of the window is absent). -/
def trailingAvg3 (xs : List (Option ℚ)) (i : Nat) : Option ℚ :=
  optMean ((xs.take (i + 1)).drop (i + 1 - 3))

theorem winMean_none_none (c : Option ℚ) : winMean none none c = optMean [c] := by
  cases c <;> rfl

theorem winMean_none (b c : Option ℚ) : winMean none b c = optMean [b, c] := by
  cases b <;> cases c <;> rfl

theorem rollingAux_eq_map : ∀ (xs : List (Option ℚ)) (a b : Option ℚ),
    rollingAux a b xs = (List.range xs.length).map
      (fun i => winMean ((a :: b :: xs).getD i none) ((a :: b :: xs).getD (i + 1) none)
        (xs.getD i none)) := by
  intro xs
  induction xs with
  | nil => intro a b; rfl
  | cons x xs ih =>
    intro a b
    simp only [rollingAux, List.length_cons, List.range_succ_eq_map, List.map_cons,
      List.map_map]
    refine List.cons_eq_cons.mpr ⟨rfl, ?_⟩
    rw [ih b x]
    refine List.map_congr_left (fun i _ => ?_)
    simp [Nat.succ_eq_add_one, List.getD_cons_succ]

theorem rollingAux_length (a b : Option ℚ) (xs : List (Option ℚ)) :
    (rollingAux a b xs).length = xs.length := by
  rw [rollingAux_eq_map]
  simp

theorem window3 : ∀ (k : Nat) (xs : List (Option ℚ)), k + 2 < xs.length →
    (xs.take (k + 3)).drop k
      = [xs.getD k none, xs.getD (k + 1) none, xs.getD (k + 2) none] := by
  intro k
  induction k with
  | zero =>
    intro xs h
    match xs, h with
    | a :: b :: c :: t, _ => simp
  | succ k ih =>
    intro xs h
    match xs, h with
    | a :: xs', h =>
      have h' : k + 2 < xs'.length := by
        simp only [List.length_cons] at h; omega
      calc ((a :: xs').take (k + 1 + 3)).drop (k + 1)
          = (xs'.take (k + 3)).drop k := by
            simp [List.take_succ_cons, List.drop_succ_cons]
        _ = [xs'.getD k none, xs'.getD (k + 1) none, xs'.getD (k + 2) none] := ih xs' h'
        _ = [(a :: xs').getD (k + 1) none, (a :: xs').getD (k + 1 + 1) none,
              (a :: xs').getD (k + 1 + 2) none] := by
            simp [List.getD_cons_succ]

theorem rollingMean3_getD (xs : List (Option ℚ)) (i : Nat) (h : i < xs.length) :
    (rollingMean3 xs).getD i none = trailingAvg3 xs i := by
  unfold rollingMean3
  rw [rollingAux_eq_map]
  rw [List.getD_eq_getElem?_getD, List.getElem?_map, List.getElem?_range h]
  show winMean _ _ _ = _
  match i, h with
  | 0, h =>
    match xs, h with
    | x :: t, _ => simp [trailingAvg3, winMean_none_none]
  | 1, h =>
    match xs, h with
    | x :: y :: t, _ => simp [trailingAvg3, winMean_none]
  | (k + 2), h =>
    have : (k + 2) + 1 - 3 = k := by omega
    rw [trailingAvg3, this]
    have h3 : (k + 2) + 1 = k + 3 := by omega
    rw [h3, window3 k xs h]
    simp [winMean, List.getD_cons_succ]

theorem rolling_col (g : List Lap) :
    (calcMetricsGroup g).map (fun m => m.lap_time_rolling_avg)
      = rollingMean3 (g.map (fun l => l.lap_time_seconds)) := by
  unfold calcMetricsGroup
  rw [List.map_map]
  have : ((fun m : MetricLap => m.lap_time_rolling_avg) ∘
      (fun p : Lap × Option ℚ =>
        ({ lap := p.1
           stint_first_lap_time := firstNonNull (g.map (fun l => l.lap_time_seconds))
           time_delta_from_first :=
             match p.1.lap_time_seconds,
               firstNonNull (g.map (fun l => l.lap_time_seconds)) with
             | some t, some b => some (t - b)
             | _, _ => none
           lap_time_rolling_avg := p.2
           degradation_rate := calcDegradationRate g } : MetricLap)))
      = Prod.snd := rfl
  rw [this, List.map_snd_zip]
  unfold rollingMean3
  rw [rollingAux_length]
  simp

end F1

namespace F1

/-- The three-lap stint of the rolling-average example: lap times
[90.0, 91.0, 89.0]. -/
def c3Laps : List Lap :=
  [ { driver := "VER", stint := 1, lap_number := 1,
      lap_time_seconds := some 90, tyre_life := some 1 },
    { driver := "VER", stint := 1, lap_number := 2,
      lap_time_seconds := some 91, tyre_life := some 2 },
    { driver := "VER", stint := 1, lap_number := 3,
      lap_time_seconds := some 89, tyre_life := some 3 } ]

/-- C3.  In every stint group, `lap_time_rolling_avg` at each position is
the mean of the present lap times in the trailing window of at most 3 laps
ending there (absent when the whole window is absent), and the stint
[90.0, 91.0, 89.0] yields rolling averages [90.0, 90.5, 90.0]. -/
theorem c3_rolling_avg :
    (∀ laps g, g ∈ stintGroups laps → ∀ i, i < g.length →
      ((calcMetricsGroup g).map (fun m => m.lap_time_rolling_avg)).getD i none
        = trailingAvg3 (g.map (fun l => l.lap_time_seconds)) i)
  ∧ (calculate_degradation_metrics c3Laps).map (fun m => m.lap_time_rolling_avg)
      = [some 90, some (181 / 2), some 90] := by
  constructor
  · intro laps g _ i hi
    rw [rolling_col, rollingMean3_getD]
    simpa using hi
  · simp +decide [calculate_degradation_metrics, stintGroups, sortLapsAll, groupRuns,
      groupRunsF, calcMetricsGroup, calcDegradationRate, validPairs, olsSlope, rollingMean3,
      rollingAux, winMean, optMean, firstNonNull, c3Laps, List.insertionSort,
      List.orderedInsert, keyEq]
    norm_num

/-- Witness for C3: the first clause applied to the stint `c3Laps` at
position 2 (whole window [90, 91, 89]). -/
theorem c3_rolling_avg_witness :
    ((calcMetricsGroup c3Laps).map (fun m => m.lap_time_rolling_avg)).getD 2 none
      = trailingAvg3 (c3Laps.map (fun l => l.lap_time_seconds)) 2 :=
  c3_rolling_avg.1 c3Laps c3Laps (by decide) 2 (by decide)

end F1

namespace F1

/-! ## The loader (src/scripts/load_data.py)

Dimension tables (circuits, teams, drivers, races, plus the externally
seeded tire_compounds) are modelled separately from the fact tables
(lap_times, weather_conditions, pit_stops): row preparation touches only
the former, batch inserts only the latter.  Surrogate ids come from a
single fresh-id counter. -/

structure CircuitRow where
  circuit_id : Nat
  circuit_name : String
  country : String
deriving DecidableEq, Repr

structure TeamRow where
  team_id : Nat
  team_name : String
  year : Nat
deriving DecidableEq, Repr

structure DriverRow where
  driver_id : Nat
  driver_code : String
  driver_number : Option Nat
  full_name : String
  year : Nat
  team_id : Nat
deriving DecidableEq, Repr

structure RaceRow where
  race_id : Nat
  year : Nat
  race_round : Nat
  race_name : String
  circuit_id : Nat
  race_date : String
deriving DecidableEq, Repr

structure CompoundRow where
  compound_id : Nat
  compound_name : String
deriving DecidableEq, Repr

structure LapTimeRow where
  race_id : Nat
  driver_id : Nat
  lap_number : Nat
  lap_time_seconds : Option ℚ
  sector1_time_seconds : Option ℚ
  sector2_time_seconds : Option ℚ
  sector3_time_seconds : Option ℚ
  compound_id : Option Nat
  tyre_life : Option Nat
  stint_number : Nat
  fresh_tyre : Bool
  track_status : String
  is_personal_best : Bool
  is_accurate : Bool
deriving DecidableEq, Repr

structure WeatherRow where
  race_id : Nat
  lap_number : Nat
  air_temp_celsius : Option ℚ
  track_temp_celsius : Option ℚ
  humidity_percent : Option ℚ
  rainfall : Bool
  wind_speed_kmh : Option ℚ
deriving DecidableEq, Repr

structure PitStopRow where
  race_id : Nat
  driver_id : Nat
  lap_number : Nat
  stop_number : Nat
  duration_seconds : ℚ
deriving DecidableEq, Repr

/-- The dimension side of the store. -/
structure Dims where
  circuits : List CircuitRow
  teams : List TeamRow
  drivers : List DriverRow
  races : List RaceRow
  compounds : List CompoundRow
  next_id : Nat
deriving DecidableEq, Repr

/-- The fact side of the store. -/
structure Facts where
  lap_times : List LapTimeRow
  weather_conditions : List WeatherRow
  pit_stops : List PitStopRow
deriving DecidableEq, Repr

/-- The relational store. -/
structure DB where
  dims : Dims
  facts : Facts
deriving DecidableEq, Repr

/-- `SELECT <id> FROM <table> WHERE <natural key>` then, on a miss,
`INSERT ... RETURNING <id>`: the common shape of the loader's four
get-or-create helpers.  `p` is the natural-key predicate, `idOf` projects
the surrogate id, `mk` builds the fresh row. -/
def resolveRow {ρ : Type} (rows : List ρ) (nid : Nat) (p : ρ → Bool)
    (idOf : ρ → Nat) (mk : Nat → ρ) : Nat × List ρ × Nat :=
  match rows.find? p with
  | some r => (idOf r, rows, nid)
  | none => (nid, rows ++ [mk nid], nid + 1)

/-- `F1DataLoader.get_or_create_circuit` — natural key: circuit_name. -/
def get_or_create_circuit (d : Dims) (circuit_name country : String) : Nat × Dims :=
  let r := resolveRow d.circuits d.next_id
    (fun c => c.circuit_name == circuit_name) (fun c => c.circuit_id)
    (fun nid => { circuit_id := nid, circuit_name := circuit_name, country := country })
  (r.1, { d with circuits := r.2.1, next_id := r.2.2 })

/-- `F1DataLoader.get_or_create_team` — natural key: (team_name, year). -/
def get_or_create_team (d : Dims) (team_name : String) (year : Nat) : Nat × Dims :=
  let r := resolveRow d.teams d.next_id
    (fun t => t.team_name == team_name && t.year == year) (fun t => t.team_id)
    (fun nid => { team_id := nid, team_name := team_name, year := year })
  (r.1, { d with teams := r.2.1, next_id := r.2.2 })

/-- `F1DataLoader.get_or_create_driver` — natural key: (driver_code, year). -/
def get_or_create_driver (d : Dims) (driver_code : String) (driver_number : Option Nat)
    (full_name : String) (year : Nat) (team_id : Nat) : Nat × Dims :=
  let r := resolveRow d.drivers d.next_id
    (fun v => v.driver_code == driver_code && v.year == year) (fun v => v.driver_id)
    (fun nid => { driver_id := nid, driver_code := driver_code,
                  driver_number := driver_number, full_name := full_name,
                  year := year, team_id := team_id })
  (r.1, { d with drivers := r.2.1, next_id := r.2.2 })

/-- `F1DataLoader.get_or_create_race` — natural key: (year, race_round). -/
def get_or_create_race (d : Dims) (year race_round : Nat) (race_name : String)
    (circuit_id : Nat) (race_date : String) : Nat × Dims :=
  let r := resolveRow d.races d.next_id
    (fun rc => rc.year == year && rc.race_round == race_round) (fun rc => rc.race_id)
    (fun nid => { race_id := nid, year := year, race_round := race_round,
                  race_name := race_name, circuit_id := circuit_id,
                  race_date := race_date })
  (r.1, { d with races := r.2.1, next_id := r.2.2 })

/-- Lookup in the pre-seeded tire_compounds table (`LIMIT 1` = first match). -/
def compoundLookup (rows : List CompoundRow) (name : String) : Option Nat :=
  (rows.find? (fun c => c.compound_name == name.toUpper)).map (fun c => c.compound_id)

/-- `F1DataLoader.get_compound_id`: `None` for a missing compound, else a
lookup that may itself return no id. -/
def get_compound_id (d : Dims) (compound : Option String) : Option Nat :=
  match compound with
  | none => none
  | some name => compoundLookup d.compounds name

end F1

namespace F1

/-- One row of the lap interchange CSV.  String columns written
unconditionally by the collector are plain; columns the loader guards with
`pd.notna` / `.get` defaults, and numeric columns whose `int(...)` parse
can throw, are `Option` (`none` = NaN/missing). -/
structure CsvLapRow where
  year : Option Nat
  race_round : Option Nat
  race_name : String
  circuit_name : String
  country : String
  driver : String
  driver_number : Option Nat
  team : String
  lap_number : Option Nat
  lap_time_seconds : Option ℚ
  sector1_time_seconds : Option ℚ
  sector2_time_seconds : Option ℚ
  sector3_time_seconds : Option ℚ
  compound : Option String
  tyre_life : Option Nat
  stint : Option Nat
  fresh_tyre : Option Bool
  track_status : Option String
  is_personal_best : Option Bool
  is_accurate : Option Bool
  air_temp : Option ℚ
  track_temp : Option ℚ
  humidity : Option ℚ
  rainfall : Option Bool
  wind_speed : Option ℚ
deriving DecidableEq, Repr

/-- The per-file loop state of `load_lap_data_from_csv`: the dimension
tables plus the two in-memory caches `race_map` (keyed (year, race_round))
and `driver_map` (keyed (driver_code, year)). -/
structure PrepState where
  dims : Dims
  race_map : List ((Nat × Nat) × Nat)
  driver_map : List ((String × Nat) × Nat)
deriving DecidableEq, Repr

/-- The race-resolution step of the row loop: consult `race_map`, else
get-or-create the circuit and then the race, caching the id. -/
def resolveRace (today : String) (st : PrepState) (r : CsvLapRow)
    (year rnd : Nat) : Nat × PrepState :=
  match st.race_map.lookup (year, rnd) with
  | some rid => (rid, st)
  | none =>
    let c := get_or_create_circuit st.dims r.circuit_name r.country
    let rc := get_or_create_race c.2 year rnd r.race_name c.1 today
    (rc.1, { dims := rc.2, race_map := ((year, rnd), rc.1) :: st.race_map,
             driver_map := st.driver_map })

/-- The driver-resolution step of the row loop: consult `driver_map`, else
get-or-create the team and then the driver (full_name is passed as the
driver code, as in the source), caching the id. -/
def resolveDriver (st : PrepState) (r : CsvLapRow) (year : Nat) : Nat × PrepState :=
  match st.driver_map.lookup (r.driver, year) with
  | some did => (did, st)
  | none =>
    let t := get_or_create_team st.dims r.team year
    let dv := get_or_create_driver t.2 r.driver r.driver_number r.driver year t.1
    (dv.1, { dims := dv.2, race_map := st.race_map,
             driver_map := ((r.driver, year), dv.1) :: st.driver_map })

/-- One iteration of the row loop of `load_lap_data_from_csv`.  A `none`
result is a skipped row (the `except: logger.warning(...); continue` arm):
`int(row['year'])` / `int(row['race_round'])` fail before any resolution,
while `int(row['lap_number'])` fails only after the dimension lookups, so
dimension rows created for a row later skipped are kept.  A successful row
yields the lap_times tuple and, when `air_temp` is present, a
weather_conditions tuple. -/
def processRow (today : String) (st : PrepState) (r : CsvLapRow) :
    PrepState × Option (LapTimeRow × Option WeatherRow) :=
  match r.year, r.race_round with
  | some year, some rnd =>
    let rr := resolveRace today st r year rnd
    let dd := resolveDriver rr.2 r year
    let compound_id := get_compound_id dd.2.dims r.compound
    match r.lap_number with
    | none => (dd.2, none)
    | some ln =>
      let lt : LapTimeRow :=
        { race_id := rr.1
          driver_id := dd.1
          lap_number := ln
          lap_time_seconds := r.lap_time_seconds
          sector1_time_seconds := r.sector1_time_seconds
          sector2_time_seconds := r.sector2_time_seconds
          sector3_time_seconds := r.sector3_time_seconds
          compound_id := compound_id
          tyre_life := r.tyre_life
          stint_number := r.stint.getD 1
          fresh_tyre := r.fresh_tyre.getD false
          track_status := r.track_status.getD "1"
          is_personal_best := r.is_personal_best.getD false
          is_accurate := r.is_accurate.getD true }
      let w : Option WeatherRow :=
        if r.air_temp.isSome then
          some { race_id := rr.1
                 lap_number := ln
                 air_temp_celsius := r.air_temp
                 track_temp_celsius := r.track_temp
                 humidity_percent := r.humidity
                 rainfall := r.rainfall.getD false
                 wind_speed_kmh := r.wind_speed }
        else none
      (dd.2, some (lt, w))
  | _, _ => (st, none)

/-- The row loop over one chunk: thread the prep state, collect the
prepared lap and weather tuples of the non-skipped rows in order. -/
def prepRows (today : String) : PrepState → List CsvLapRow →
    PrepState × List LapTimeRow × List WeatherRow
  | st, [] => (st, [], [])
  | st, r :: rest =>
    let step := processRow today st r
    let acc := prepRows today step.1 rest
    (acc.1, (step.2.map Prod.fst).toList ++ acc.2.1,
      (step.2.bind Prod.snd).toList ++ acc.2.2)

/-- `ON CONFLICT (race_id, driver_id, lap_number) DO NOTHING` key test. -/
def lapKeyMatches (t : LapTimeRow) (r : LapTimeRow) : Bool :=
  r.race_id == t.race_id && r.driver_id == t.driver_id && r.lap_number == t.lap_number

/-- Insert one lap fact row; a duplicate logical key is a silent no-op. -/
def insertLapRowList (L : List LapTimeRow) (t : LapTimeRow) : List LapTimeRow :=
  if L.any (lapKeyMatches t) then L else L ++ [t]

/-- `execute_values` over a lap batch: rows are inserted one after the
other, each honouring the conflict clause (also against rows of the same
batch). -/
def insertLapList (L : List LapTimeRow) (ts : List LapTimeRow) : List LapTimeRow :=
  ts.foldl insertLapRowList L

/-- `ON CONFLICT (race_id, lap_number) DO NOTHING` key test. -/
def weatherKeyMatches (t : WeatherRow) (r : WeatherRow) : Bool :=
  r.race_id == t.race_id && r.lap_number == t.lap_number

/-- Insert one weather fact row; a duplicate key is a silent no-op. -/
def insertWeatherRowList (L : List WeatherRow) (t : WeatherRow) : List WeatherRow :=
  if L.any (weatherKeyMatches t) then L else L ++ [t]

/-- `execute_values` over a weather batch. -/
def insertWeatherList (L : List WeatherRow) (ts : List WeatherRow) : List WeatherRow :=
  ts.foldl insertWeatherRowList L

/-- Lap batch insert on the fact side of the store. -/
def insertLapBatch (f : Facts) (ts : List LapTimeRow) : Facts :=
  { f with lap_times := insertLapList f.lap_times ts }

/-- Weather batch insert on the fact side of the store. -/
def insertWeatherBatch (f : Facts) (ws : List WeatherRow) : Facts :=
  { f with weather_conditions := insertWeatherList f.weather_conditions ws }

/-- Fuelled chunking (`range(0, len(df), chunk_size)`); fuel of at least
the list's length reproduces the chunk decomposition for any positive
chunk size. -/
def chunksOfF {α : Type} (size : Nat) : Nat → List α → List (List α)
  | _, [] => []
  | 0, _ :: _ => []
  | n + 1, x :: xs => ((x :: xs).take size) :: chunksOfF size n ((x :: xs).drop size)

/-- The chunk loop of `load_lap_data_from_csv`, with a fault oracle:
`fail k` says that the k-th chunk's batch write raises a persistence
error.  A failing chunk's transaction (its dimension inserts and its fact
batches, none of them committed yet) is discarded and the error aborts the
loop; otherwise the lap batch and then the weather batch are inserted and
committed, and `total_inserted` grows by the lap batch length. -/
def loadChunksF (fail : Nat → Bool) (today : String) :
    Nat → PrepState → Facts → Nat → List (List CsvLapRow) →
    Nat × PrepState × Facts × Nat × Bool
  | k, st, facts, tot, [] => (k, st, facts, tot, false)
  | k, st, facts, tot, c :: cs =>
    let prep := prepRows today st c
    if fail k then (k + 1, st, facts, tot, true)
    else loadChunksF fail today (k + 1) prep.1
      (insertWeatherBatch (insertLapBatch facts prep.2.1) prep.2.2)
      (tot + prep.2.1.length) cs

/-- What the two summary log lines of `load_lap_data_from_csv` report:
`"Loaded {len(df)} rows from CSV"` and
`"Successfully inserted {total_inserted} lap records"`. -/
structure LapLoadSummary where
  rows_read : Nat
  total_inserted : Nat
deriving DecidableEq, Repr

/-- `F1DataLoader.load_lap_data_from_csv` with the fault oracle and the
running write counter exposed (for the multi-file main loop).  The last
component reports whether a persistence error aborted this file. -/
def load_lap_file_fallible (fail : Nat → Bool) (today : String) (k : Nat) (db : DB)
    (rows : List CsvLapRow) : Nat × DB × LapLoadSummary × Bool :=
  let res := loadChunksF fail today k
    { dims := db.dims, race_map := [], driver_map := [] }
    db.facts 0 (chunksOfF 1000 rows.length rows)
  (res.1, { dims := res.2.1.dims, facts := res.2.2.1 },
    { rows_read := rows.length, total_inserted := res.2.2.2.1 }, res.2.2.2.2)

/-- `F1DataLoader.load_lap_data_from_csv` on a healthy connection (no
batch write fails). -/
def load_lap_data_from_csv (today : String) (db : DB) (rows : List CsvLapRow) :
    DB × LapLoadSummary :=
  let res := load_lap_file_fallible (fun _ => false) today 0 db rows
  (res.2.1, res.2.2.1)

/-- The lap-file loop of `main`: files are loaded in order; an exception
escaping one file's load escapes the single surrounding `try` as well, so
the remaining files are not processed (`main` logs the error and
re-raises). -/
def mainLoadLapFiles (fail : Nat → Bool) (today : String) :
    Nat → DB → List (List CsvLapRow) → DB × List LapLoadSummary × Bool
  | _, db, [] => (db, [], false)
  | k, db, f :: fs =>
    match load_lap_file_fallible fail today k db f with
    | (_, db', _, true) => (db', [], true)
    | (k', db', s, false) =>
      match mainLoadLapFiles fail today k' db' fs with
      | (dbF, ss, abF) => (dbF, s :: ss, abF)

/-- One row of the pit-stop interchange CSV. -/
structure CsvPitRow where
  year : Option Nat
  race_round : Option Nat
  driver : String
  lap : Option Nat
  stop_number : Option Nat
  duration_seconds : Option ℚ
deriving DecidableEq, Repr

/-- One iteration of the row loop of `load_pit_data_from_csv`: resolve the
race and driver by plain `SELECT` (an unresolved key or a failed parse
skips the row), producing the pit_stops tuple. -/
def processPitRow (d : Dims) (r : CsvPitRow) : Option PitStopRow :=
  match r.year, r.race_round with
  | some y, some rnd =>
    match (d.races.find? (fun rc => rc.year == y && rc.race_round == rnd)).map
        (fun rc => rc.race_id) with
    | none => none
    | some race_id =>
      match (d.drivers.find? (fun dv => dv.driver_code == r.driver && dv.year == y)).map
          (fun dv => dv.driver_id) with
      | none => none
      | some driver_id =>
        match r.lap, r.stop_number, r.duration_seconds with
        | some lap, some stop, some dur =>
          some { race_id := race_id, driver_id := driver_id, lap_number := lap,
                 stop_number := stop, duration_seconds := dur }
        | _, _, _ => none
  | _, _ => none

/-- `F1DataLoader.load_pit_data_from_csv`: prepare all resolvable rows,
then one batch `INSERT INTO pit_stops ... VALUES %s` — no conflict clause,
no duplicate check, every prepared row is appended.  Returns the new store
and the number of inserted pit rows. -/
def load_pit_data_from_csv (db : DB) (rows : List CsvPitRow) : DB × Nat :=
  let pit := rows.filterMap (processPitRow db.dims)
  ({ dims := db.dims,
     facts := { db.facts with pit_stops := db.facts.pit_stops ++ pit } },
    pit.length)

end F1

namespace F1

theorem resolveRow_idem {ρ : Type} (rows : List ρ) (nid nid2 : Nat) (p : ρ → Bool)
    (idOf : ρ → Nat) (mk mk2 : Nat → ρ) (hp : p (mk nid) = true)
    (hid : idOf (mk nid) = nid) :
    resolveRow (resolveRow rows nid p idOf mk).2.1 nid2 p idOf mk2
      = ((resolveRow rows nid p idOf mk).1, (resolveRow rows nid p idOf mk).2.1, nid2) := by
  unfold resolveRow
  cases h : rows.find? p with
  | some r => simp [h]
  | none => simp [h, List.find?_append, hp, hid]

theorem resolveRow_length_le {ρ : Type} (rows : List ρ) (nid : Nat) (p : ρ → Bool)
    (idOf : ρ → Nat) (mk : Nat → ρ) :
    (resolveRow rows nid p idOf mk).2.1.length ≤ rows.length + 1 := by
  unfold resolveRow
  cases h : rows.find? p <;> simp [h]

theorem get_or_create_circuit_idem (d : Dims) (name c1 c2 : String) :
    (get_or_create_circuit (get_or_create_circuit d name c1).2 name c2).1
      = (get_or_create_circuit d name c1).1
    ∧ (get_or_create_circuit (get_or_create_circuit d name c1).2 name c2).2
      = (get_or_create_circuit d name c1).2
    ∧ (get_or_create_circuit d name c1).2.circuits.length ≤ d.circuits.length + 1 := by
  unfold get_or_create_circuit
  rw [resolveRow_idem d.circuits d.next_id _ _ _ _ _ (by simp) rfl]
  exact ⟨rfl, rfl, resolveRow_length_le _ _ _ _ _⟩

end F1

namespace F1

theorem get_or_create_team_idem (d : Dims) (name : String) (year : Nat) :
    (get_or_create_team (get_or_create_team d name year).2 name year).1
      = (get_or_create_team d name year).1
    ∧ (get_or_create_team (get_or_create_team d name year).2 name year).2
      = (get_or_create_team d name year).2
    ∧ (get_or_create_team d name year).2.teams.length ≤ d.teams.length + 1 := by
  unfold get_or_create_team
  rw [resolveRow_idem d.teams d.next_id _ _ _ _ _ (by simp) rfl]
  exact ⟨rfl, rfl, resolveRow_length_le _ _ _ _ _⟩

theorem get_or_create_driver_idem (d : Dims) (code : String) (num1 num2 : Option Nat)
    (fn1 fn2 : String) (year : Nat) (tid1 tid2 : Nat) :
    (get_or_create_driver (get_or_create_driver d code num1 fn1 year tid1).2
        code num2 fn2 year tid2).1
      = (get_or_create_driver d code num1 fn1 year tid1).1
    ∧ (get_or_create_driver (get_or_create_driver d code num1 fn1 year tid1).2
        code num2 fn2 year tid2).2
      = (get_or_create_driver d code num1 fn1 year tid1).2
    ∧ (get_or_create_driver d code num1 fn1 year tid1).2.drivers.length
        ≤ d.drivers.length + 1 := by
  unfold get_or_create_driver
  rw [resolveRow_idem d.drivers d.next_id _ _ _ _ _ (by simp) rfl]
  exact ⟨rfl, rfl, resolveRow_length_le _ _ _ _ _⟩

theorem get_or_create_race_idem (d : Dims) (year rnd : Nat) (n1 n2 : String)
    (cid1 cid2 : Nat) (dt1 dt2 : String) :
    (get_or_create_race (get_or_create_race d year rnd n1 cid1 dt1).2
        year rnd n2 cid2 dt2).1
      = (get_or_create_race d year rnd n1 cid1 dt1).1
    ∧ (get_or_create_race (get_or_create_race d year rnd n1 cid1 dt1).2
        year rnd n2 cid2 dt2).2
      = (get_or_create_race d year rnd n1 cid1 dt1).2
    ∧ (get_or_create_race d year rnd n1 cid1 dt1).2.races.length
        ≤ d.races.length + 1 := by
  unfold get_or_create_race
  rw [resolveRow_idem d.races d.next_id _ _ _ _ _ (by simp) rfl]
  exact ⟨rfl, rfl, resolveRow_length_le _ _ _ _ _⟩

/-- C6.  For each of the four dimension kinds, resolving the same natural
key twice in a run returns the same surrogate id both times and performs no
second insertion (the store is unchanged by the second call), and the first
call adds at most one row for the key. -/
theorem c6_resolver_idempotent :
    (∀ (d : Dims) (name c1 c2 : String),
      (get_or_create_circuit (get_or_create_circuit d name c1).2 name c2).1
        = (get_or_create_circuit d name c1).1
      ∧ (get_or_create_circuit (get_or_create_circuit d name c1).2 name c2).2
        = (get_or_create_circuit d name c1).2
      ∧ (get_or_create_circuit d name c1).2.circuits.length ≤ d.circuits.length + 1)
  ∧ (∀ (d : Dims) (name : String) (year : Nat),
      (get_or_create_team (get_or_create_team d name year).2 name year).1
        = (get_or_create_team d name year).1
      ∧ (get_or_create_team (get_or_create_team d name year).2 name year).2
        = (get_or_create_team d name year).2
      ∧ (get_or_create_team d name year).2.teams.length ≤ d.teams.length + 1)
  ∧ (∀ (d : Dims) (code : String) (num1 num2 : Option Nat) (fn1 fn2 : String)
        (year tid1 tid2 : Nat),
      (get_or_create_driver (get_or_create_driver d code num1 fn1 year tid1).2
          code num2 fn2 year tid2).1
        = (get_or_create_driver d code num1 fn1 year tid1).1
      ∧ (get_or_create_driver (get_or_create_driver d code num1 fn1 year tid1).2
          code num2 fn2 year tid2).2
        = (get_or_create_driver d code num1 fn1 year tid1).2
      ∧ (get_or_create_driver d code num1 fn1 year tid1).2.drivers.length
          ≤ d.drivers.length + 1)
  ∧ (∀ (d : Dims) (year rnd : Nat) (n1 n2 : String) (cid1 cid2 : Nat) (dt1 dt2 : String),
      (get_or_create_race (get_or_create_race d year rnd n1 cid1 dt1).2
          year rnd n2 cid2 dt2).1
        = (get_or_create_race d year rnd n1 cid1 dt1).1
      ∧ (get_or_create_race (get_or_create_race d year rnd n1 cid1 dt1).2
          year rnd n2 cid2 dt2).2
        = (get_or_create_race d year rnd n1 cid1 dt1).2
      ∧ (get_or_create_race d year rnd n1 cid1 dt1).2.races.length
          ≤ d.races.length + 1) :=
  ⟨fun d name c1 c2 => get_or_create_circuit_idem d name c1 c2,
   fun d name year => get_or_create_team_idem d name year,
   fun d code num1 num2 fn1 fn2 year tid1 tid2 =>
     get_or_create_driver_idem d code num1 num2 fn1 fn2 year tid1 tid2,
   fun d year rnd n1 n2 cid1 cid2 dt1 dt2 =>
     get_or_create_race_idem d year rnd n1 n2 cid1 cid2 dt1 dt2⟩

end F1

namespace F1

/-- A store with no dimension rows (the externally seeded tire_compounds
table empty as well) and the id sequence at 1. -/
def emptyDims : Dims :=
  { circuits := [], teams := [], drivers := [], races := [], compounds := [], next_id := 1 }

/-- An entirely empty store. -/
def emptyDB : DB :=
  { dims := emptyDims,
    facts := { lap_times := [], weather_conditions := [], pit_stops := [] } }

/-- C7 counterexample: called with the empty circuit name on an empty
store, the resolver raises no error and silently inserts a dimension row
whose natural key is the empty string — against the claim that a malformed
(empty) key fails fast with a ValidationError and inserts nothing. -/
theorem c7_counterexample :
    (get_or_create_circuit emptyDims "" "Nowhere").2.circuits
      = [{ circuit_id := 1, circuit_name := "", country := "Nowhere" }] := by
  rfl

/-- C7 amended.  The resolver performs no key validation at all: with an
empty natural key whose lookup misses, `get_or_create_circuit` and
`get_or_create_team` return normally and insert a dimension row carrying
the empty key (no ValidationError path exists in the loader). -/
theorem c7_amended :
    (∀ (d : Dims) (country : String),
      d.circuits.find? (fun c => c.circuit_name == "") = none →
      (get_or_create_circuit d "" country).2.circuits
        = d.circuits ++ [{ circuit_id := d.next_id, circuit_name := "", country := country }]
      ∧ (get_or_create_circuit d "" country).1 = d.next_id)
  ∧ (∀ (d : Dims) (year : Nat),
      d.teams.find? (fun t => t.team_name == "" && t.year == year) = none →
      (get_or_create_team d "" year).2.teams
        = d.teams ++ [{ team_id := d.next_id, team_name := "", year := year }]
      ∧ (get_or_create_team d "" year).1 = d.next_id) := by
  constructor
  · intro d country h
    unfold get_or_create_circuit resolveRow
    rw [h]
    exact ⟨rfl, rfl⟩
  · intro d year h
    unfold get_or_create_team resolveRow
    rw [h]
    exact ⟨rfl, rfl⟩

/-- Witness for the amended C7: the empty-key call on the empty store. -/
theorem c7_amended_witness :
    (get_or_create_circuit emptyDims "" "Nowhere").2.circuits
        = emptyDims.circuits
          ++ [{ circuit_id := emptyDims.next_id, circuit_name := "", country := "Nowhere" }]
      ∧ (get_or_create_circuit emptyDims "" "Nowhere").1 = emptyDims.next_id :=
  c7_amended.1 emptyDims "Nowhere" (by rfl)

end F1

namespace F1

/-- A store already holding the race and driver a pit row refers to. -/
def c10DB : DB :=
  { dims := { circuits := [{ circuit_id := 9, circuit_name := "Sakhir", country := "Bahrain" }]
              teams := [{ team_id := 5, team_name := "Red Bull Racing", year := 2023 }]
              drivers := [{ driver_id := 2, driver_code := "VER", driver_number := some 1,
                            full_name := "VER", year := 2023, team_id := 5 }]
              races := [{ race_id := 1, year := 2023, race_round := 1,
                          race_name := "Bahrain Grand Prix", circuit_id := 9,
                          race_date := "2023-03-05" }]
              compounds := [], next_id := 10 }
    facts := { lap_times := [], weather_conditions := [], pit_stops := [] } }

/-- A one-row pit-stop file resolvable against `c10DB`. -/
def c10PitRows : List CsvPitRow :=
  [{ year := some 2023, race_round := some 1, driver := "VER",
     lap := some 10, stop_number := some 1, duration_seconds := some 22 }]

/-- A fact table holding one lap row, for exercising the conflict clause. -/
def c10Fact : LapTimeRow :=
  { race_id := 1, driver_id := 2, lap_number := 3, lap_time_seconds := some 90,
    sector1_time_seconds := none, sector2_time_seconds := none,
    sector3_time_seconds := none, compound_id := none, tyre_life := none,
    stint_number := 1, fresh_tyre := false, track_status := "1",
    is_personal_best := false, is_accurate := true }

def c10Facts : Facts :=
  { lap_times := [c10Fact], weather_conditions := [], pit_stops := [] }

/-- C10.  Pit-stop loading is not idempotent: `load_pit_data_from_csv`
appends every resolvable row with a plain INSERT (no conflict clause, no
duplicate check), so loading the same pit file twice appends the prepared
rows twice — unlike lap and weather inserts, for which a duplicate logical
key is a no-op.  The concrete one-row file on a prepared store ends up
stored twice. -/
theorem c10_pit_not_idempotent :
    (∀ (db : DB) (rows : List CsvPitRow),
      (load_pit_data_from_csv (load_pit_data_from_csv db rows).1 rows).1.facts.pit_stops
        = db.facts.pit_stops
          ++ rows.filterMap (processPitRow db.dims)
          ++ rows.filterMap (processPitRow db.dims))
  ∧ (∀ (f : Facts) (t : LapTimeRow),
      f.lap_times.any (lapKeyMatches t) = true → insertLapBatch f [t] = f)
  ∧ (∀ (f : Facts) (w : WeatherRow),
      f.weather_conditions.any (weatherKeyMatches w) = true → insertWeatherBatch f [w] = f)
  ∧ (load_pit_data_from_csv (load_pit_data_from_csv c10DB c10PitRows).1
      c10PitRows).1.facts.pit_stops.length = 2 := by
  refine ⟨fun db rows => ?_, fun f t h => ?_, fun f w h => ?_, by decide⟩
  · show (db.facts.pit_stops ++ rows.filterMap (processPitRow db.dims))
        ++ rows.filterMap (processPitRow db.dims) = _
    rw [List.append_assoc]
  · unfold insertLapBatch insertLapList
    simp [insertLapRowList, h]
  · unfold insertWeatherBatch insertWeatherList
    simp [insertWeatherRowList, h]

/-- Witness for C10: the lap-conflict clause applied to a store already
holding the row's key. -/
theorem c10_pit_not_idempotent_witness :
    insertLapBatch c10Facts [c10Fact] = c10Facts :=
  c10_pit_not_idempotent.2.1 c10Facts c10Fact (by decide)

end F1

namespace F1

/-- A lap-CSV row with every required field present but `lap_time_seconds`
absent (NaN). -/
def c4BadTimeRow : CsvLapRow :=
  { year := some 2023, race_round := some 1, race_name := "Bahrain Grand Prix",
    circuit_name := "Sakhir", country := "Bahrain", driver := "VER",
    driver_number := some 1, team := "Red Bull Racing", lap_number := some 5,
    lap_time_seconds := none, sector1_time_seconds := none,
    sector2_time_seconds := none, sector3_time_seconds := none, compound := none,
    tyre_life := some 3, stint := some 1, fresh_tyre := some true,
    track_status := some "1", is_personal_best := some false,
    is_accurate := some true, air_temp := none, track_temp := none,
    humidity := none, rainfall := none, wind_speed := none }

/-- C4 counterexample: presented with a row whose lap_time is absent, the
loader does not skip it — it persists a lap fact row with a NULL lap time
(lap 5 below), so such rows are not "excluded from the persisted lap fact
rows ... skipped and counted as a failure" by the loading stage. -/
theorem c4_counterexample :
    (load_lap_data_from_csv "2024-01-01" emptyDB [c4BadTimeRow]).1.facts.lap_times.map
        (fun t => (t.lap_number, t.lap_time_seconds)) = [(5, none)]
    ∧ (load_lap_data_from_csv "2024-01-01" emptyDB [c4BadTimeRow]).2.total_inserted = 1 := by
  constructor <;> decide

/-- A raw collector lap whose lap_time is absent. -/
def c4BadLap : Lap :=
  { driver := "VER", stint := 1, lap_number := 1,
    lap_time_seconds := none, tyre_life := some 1 }

/-- A lap-CSV row whose `lap_number` is absent: `int(row['lap_number'])`
raises, so the loader skips it. -/
def c4BadLapNumberRow : CsvLapRow :=
  { c4BadTimeRow with lap_number := none, lap_time_seconds := some 90 }

/-- A fully well-formed lap-CSV row. -/
def c4GoodRow : CsvLapRow :=
  { c4BadTimeRow with lap_number := some 6, lap_time_seconds := some 91 }

/-- C4 amended.  Rows with absent or non-positive lap_time are excluded by
the collector's cleaning step, which runs before the degradation-rate
computation, so they never reach the regression; every row surviving the
cleaning has a present, strictly positive lap_time.  The loader itself
does not re-validate lap_time (a row with an absent lap_time is persisted
with a NULL value, see the counterexample); a row is skipped — with a log
warning, not a counter — only when a required integer parse fails
(e.g. absent lap_number), and the batch continues past such a row. -/
theorem c4_amended :
    (∀ (rows : List Lap) (r : Lap), r ∈ rows →
      (r.lap_time_seconds = none ∨ ∃ t, r.lap_time_seconds = some t ∧ t ≤ 0) →
      r ∉ cleanLapData rows)
  ∧ (∀ (rows : List Lap) (r : Lap), r ∈ cleanLapData rows →
      ∃ t, r.lap_time_seconds = some t ∧ 0 < t)
  ∧ (load_lap_data_from_csv "2024-01-01" emptyDB
        [c4BadLapNumberRow, c4GoodRow]).1.facts.lap_times.map
        (fun t => (t.lap_number, t.lap_time_seconds)) = [(6, some 91)] := by
  refine ⟨fun rows r _ hbad hmem => ?_, fun rows r hmem => ?_, by decide⟩
  · unfold cleanLapData at hmem
    rw [List.mem_filter, List.mem_filter] at hmem
    rcases hbad with h | ⟨t, ht, hle⟩
    · rw [h] at hmem
      simp at hmem
    · rw [ht] at hmem
      have := hmem.2
      simp only [decide_eq_true_eq] at this
      exact absurd this (not_lt.mpr hle)
  · unfold cleanLapData at hmem
    rw [List.mem_filter, List.mem_filter] at hmem
    obtain ⟨⟨_, hsome⟩, hpos⟩ := hmem
    obtain ⟨t, ht⟩ := Option.isSome_iff_exists.mp hsome
    refine ⟨t, ht, ?_⟩
    rw [ht] at hpos
    simpa using hpos

/-- Witness for the amended C4: the exclusion clause applied to the
concrete absent-lap_time lap. -/
theorem c4_amended_witness : c4BadLap ∉ cleanLapData [c4BadLap] :=
  c4_amended.1 [c4BadLap] c4BadLap (List.mem_singleton.mpr rfl) (Or.inl rfl)

end F1

namespace F1

/-- Store-extension order on the dimension side: every dimension table of
`a` is an initial segment of the one in `b` (the loader only ever appends
dimension rows), and the externally seeded compounds table is untouched. -/
def dimsExt (a b : Dims) : Prop :=
  (∃ t, b.circuits = a.circuits ++ t) ∧ (∃ t, b.teams = a.teams ++ t) ∧
  (∃ t, b.drivers = a.drivers ++ t) ∧ (∃ t, b.races = a.races ++ t) ∧
  a.compounds = b.compounds

theorem dimsExt_refl (a : Dims) : dimsExt a a :=
  ⟨⟨[], by simp⟩, ⟨[], by simp⟩, ⟨[], by simp⟩, ⟨[], by simp⟩, rfl⟩

theorem dimsExt_trans {a b c : Dims} (h1 : dimsExt a b) (h2 : dimsExt b c) :
    dimsExt a c := by
  obtain ⟨⟨t1, e1⟩, ⟨t2, e2⟩, ⟨t3, e3⟩, ⟨t4, e4⟩, e5⟩ := h1
  obtain ⟨⟨s1, f1⟩, ⟨s2, f2⟩, ⟨s3, f3⟩, ⟨s4, f4⟩, f5⟩ := h2
  exact ⟨⟨t1 ++ s1, by rw [f1, e1, List.append_assoc]⟩,
         ⟨t2 ++ s2, by rw [f2, e2, List.append_assoc]⟩,
         ⟨t3 ++ s3, by rw [f3, e3, List.append_assoc]⟩,
         ⟨t4 ++ s4, by rw [f4, e4, List.append_assoc]⟩,
         e5.trans f5⟩

theorem resolveRow_ext {ρ : Type} (rows : List ρ) (nid : Nat) (p : ρ → Bool)
    (idOf : ρ → Nat) (mk : Nat → ρ) :
    ∃ t, (resolveRow rows nid p idOf mk).2.1 = rows ++ t := by
  unfold resolveRow
  cases h : rows.find? p with
  | some r => exact ⟨[], by simp [h]⟩
  | none => exact ⟨[mk nid], by simp [h]⟩

theorem resolveRow_replay {ρ : Type} (rows : List ρ) (nid : Nat) (p : ρ → Bool)
    (idOf : ρ → Nat) (mk : Nat → ρ) (rows2 : List ρ) (nid2 : Nat) (mk2 : Nat → ρ)
    (hp : p (mk nid) = true) (hid : idOf (mk nid) = nid)
    (hext : ∃ t, rows2 = (resolveRow rows nid p idOf mk).2.1 ++ t) :
    resolveRow rows2 nid2 p idOf mk2
      = ((resolveRow rows nid p idOf mk).1, rows2, nid2) := by
  obtain ⟨t, rfl⟩ := hext
  unfold resolveRow
  cases h : rows.find? p with
  | some r => simp [h, List.find?_append]
  | none => simp [h, List.find?_append, hp, hid]

theorem get_or_create_circuit_ext (d : Dims) (nm c : String) :
    dimsExt d (get_or_create_circuit d nm c).2 := by
  unfold get_or_create_circuit
  exact ⟨resolveRow_ext _ _ _ _ _, ⟨[], by simp⟩, ⟨[], by simp⟩, ⟨[], by simp⟩, rfl⟩

theorem get_or_create_team_ext (d : Dims) (nm : String) (y : Nat) :
    dimsExt d (get_or_create_team d nm y).2 := by
  unfold get_or_create_team
  exact ⟨⟨[], by simp⟩, resolveRow_ext _ _ _ _ _, ⟨[], by simp⟩, ⟨[], by simp⟩, rfl⟩

theorem get_or_create_driver_ext (d : Dims) (code : String) (num : Option Nat)
    (fn : String) (y tid : Nat) :
    dimsExt d (get_or_create_driver d code num fn y tid).2 := by
  unfold get_or_create_driver
  exact ⟨⟨[], by simp⟩, ⟨[], by simp⟩, resolveRow_ext _ _ _ _ _, ⟨[], by simp⟩, rfl⟩

theorem get_or_create_race_ext (d : Dims) (y rnd : Nat) (nm : String)
    (cid : Nat) (dt : String) :
    dimsExt d (get_or_create_race d y rnd nm cid dt).2 := by
  unfold get_or_create_race
  exact ⟨⟨[], by simp⟩, ⟨[], by simp⟩, ⟨[], by simp⟩, resolveRow_ext _ _ _ _ _, rfl⟩

theorem get_or_create_circuit_replay (d : Dims) (nm c : String) (D : Dims) (c2 : String)
    (h : dimsExt (get_or_create_circuit d nm c).2 D) :
    get_or_create_circuit D nm c2 = ((get_or_create_circuit d nm c).1, D) := by
  obtain ⟨⟨t, ht⟩, -, -, -, -⟩ := h
  unfold get_or_create_circuit at ht ⊢
  rw [resolveRow_replay d.circuits d.next_id _ _ _ D.circuits D.next_id _
    (by simp) rfl ⟨t, ht⟩]

theorem get_or_create_team_replay (d : Dims) (nm : String) (y : Nat) (D : Dims)
    (h : dimsExt (get_or_create_team d nm y).2 D) :
    get_or_create_team D nm y = ((get_or_create_team d nm y).1, D) := by
  obtain ⟨-, ⟨t, ht⟩, -, -, -⟩ := h
  unfold get_or_create_team at ht ⊢
  rw [resolveRow_replay d.teams d.next_id _ _ _ D.teams D.next_id _
    (by simp) rfl ⟨t, ht⟩]

theorem get_or_create_driver_replay (d : Dims) (code : String) (num : Option Nat)
    (fn : String) (y tid : Nat) (D : Dims) (num2 : Option Nat) (fn2 : String) (tid2 : Nat)
    (h : dimsExt (get_or_create_driver d code num fn y tid).2 D) :
    get_or_create_driver D code num2 fn2 y tid2
      = ((get_or_create_driver d code num fn y tid).1, D) := by
  obtain ⟨-, -, ⟨t, ht⟩, -, -⟩ := h
  unfold get_or_create_driver at ht ⊢
  rw [resolveRow_replay d.drivers d.next_id _ _ _ D.drivers D.next_id _
    (by simp) rfl ⟨t, ht⟩]

theorem get_or_create_race_replay (d : Dims) (y rnd : Nat) (nm : String) (cid : Nat)
    (dt : String) (D : Dims) (nm2 : String) (cid2 : Nat) (dt2 : String)
    (h : dimsExt (get_or_create_race d y rnd nm cid dt).2 D) :
    get_or_create_race D y rnd nm2 cid2 dt2
      = ((get_or_create_race d y rnd nm cid dt).1, D) := by
  obtain ⟨-, -, -, ⟨t, ht⟩, -⟩ := h
  unfold get_or_create_race at ht ⊢
  rw [resolveRow_replay d.races d.next_id _ _ _ D.races D.next_id _
    (by simp) rfl ⟨t, ht⟩]

theorem get_compound_id_congr {a b : Dims} (h : a.compounds = b.compounds)
    (c : Option String) : get_compound_id a c = get_compound_id b c := by
  unfold get_compound_id
  cases c with
  | none => rfl
  | some nm => unfold compoundLookup; rw [h]

end F1

namespace F1

theorem resolveRace_driver_map (today : String) (st : PrepState) (r : CsvLapRow)
    (year rnd : Nat) : (resolveRace today st r year rnd).2.driver_map = st.driver_map := by
  unfold resolveRace
  cases hl : st.race_map.lookup (year, rnd) <;> rfl

theorem resolveDriver_race_map (st : PrepState) (r : CsvLapRow) (year : Nat) :
    (resolveDriver st r year).2.race_map = st.race_map := by
  unfold resolveDriver
  cases hl : st.driver_map.lookup (r.driver, year) <;> rfl

theorem resolveRace_ext (today : String) (st : PrepState) (r : CsvLapRow)
    (year rnd : Nat) : dimsExt st.dims (resolveRace today st r year rnd).2.dims := by
  unfold resolveRace
  cases hl : st.race_map.lookup (year, rnd) with
  | some rid => exact dimsExt_refl _
  | none =>
    exact dimsExt_trans (get_or_create_circuit_ext _ _ _) (get_or_create_race_ext _ _ _ _ _ _)

theorem resolveDriver_ext (st : PrepState) (r : CsvLapRow) (year : Nat) :
    dimsExt st.dims (resolveDriver st r year).2.dims := by
  unfold resolveDriver
  cases hl : st.driver_map.lookup (r.driver, year) with
  | some did => exact dimsExt_refl _
  | none =>
    exact dimsExt_trans (get_or_create_team_ext _ _ _)
      (get_or_create_driver_ext _ _ _ _ _ _)

theorem resolveRace_replay (today today2 : String) (st : PrepState) (r : CsvLapRow)
    (year rnd : Nat) (D : Dims)
    (h : dimsExt (resolveRace today st r year rnd).2.dims D) :
    resolveRace today2 { dims := D, race_map := st.race_map, driver_map := st.driver_map }
        r year rnd
      = ((resolveRace today st r year rnd).1,
         { dims := D, race_map := (resolveRace today st r year rnd).2.race_map,
           driver_map := st.driver_map }) := by
  unfold resolveRace at h ⊢
  cases hl : st.race_map.lookup (year, rnd) with
  | some rid => simp [hl]
  | none =>
    simp only [hl] at h ⊢
    have hc : dimsExt (get_or_create_circuit st.dims r.circuit_name r.country).2 D :=
      dimsExt_trans (get_or_create_race_ext _ _ _ _ _ _) h
    rw [get_or_create_circuit_replay st.dims r.circuit_name r.country D r.country hc]
    rw [get_or_create_race_replay _ year rnd r.race_name _ today D r.race_name _ today2 h]

theorem resolveDriver_replay (st : PrepState) (r : CsvLapRow) (year : Nat)
    (D : Dims) (M : List ((Nat × Nat) × Nat))
    (h : dimsExt (resolveDriver st r year).2.dims D) :
    resolveDriver { dims := D, race_map := M, driver_map := st.driver_map } r year
      = ((resolveDriver st r year).1,
         { dims := D, race_map := M,
           driver_map := (resolveDriver st r year).2.driver_map }) := by
  unfold resolveDriver at h ⊢
  cases hl : st.driver_map.lookup (r.driver, year) with
  | some did => simp [hl]
  | none =>
    simp only [hl] at h ⊢
    have ht : dimsExt (get_or_create_team st.dims r.team year).2 D :=
      dimsExt_trans (get_or_create_driver_ext _ _ _ _ _ _) h
    rw [get_or_create_team_replay st.dims r.team year D ht]
    rw [get_or_create_driver_replay _ r.driver r.driver_number r.driver year _ D
      r.driver_number r.driver _ h]

end F1

namespace F1

theorem processRow_ext (today : String) (st : PrepState) (r : CsvLapRow) :
    dimsExt st.dims (processRow today st r).1.dims := by
  unfold processRow
  cases hy : r.year with
  | none => exact dimsExt_refl _
  | some year =>
    cases hr : r.race_round with
    | none => exact dimsExt_refl _
    | some rnd =>
      cases hl : r.lap_number <;>
        exact dimsExt_trans (resolveRace_ext today st r year rnd)
          (resolveDriver_ext _ r year)

theorem processRow_replay (today today2 : String) (st : PrepState) (r : CsvLapRow)
    (D : Dims) (h : dimsExt (processRow today st r).1.dims D) :
    processRow today2 { dims := D, race_map := st.race_map, driver_map := st.driver_map } r
      = ({ dims := D, race_map := (processRow today st r).1.race_map,
           driver_map := (processRow today st r).1.driver_map },
         (processRow today st r).2) := by
  unfold processRow at h ⊢
  cases hy : r.year with
  | none => rfl
  | some year =>
    cases hr : r.race_round with
    | none => rfl
    | some rnd =>
      simp only [hy, hr] at h
      have h2 : dimsExt (resolveDriver (resolveRace today st r year rnd).2 r year).2.dims D := by
        cases hl : r.lap_number <;> simpa [hl] using h
      have h1 : dimsExt (resolveRace today st r year rnd).2.dims D :=
        dimsExt_trans (resolveDriver_ext _ r year) h2
      have hcomp : (resolveDriver (resolveRace today st r year rnd).2 r year).2.dims.compounds
          = D.compounds := h2.2.2.2.2
      dsimp only
      rw [resolveRace_replay today today2 st r year rnd D h1]
      rw [show st.driver_map = (resolveRace today st r year rnd).2.driver_map from
        (resolveRace_driver_map today st r year rnd).symm]
      rw [resolveDriver_replay (resolveRace today st r year rnd).2 r year D
        (resolveRace today st r year rnd).2.race_map h2]
      rw [← get_compound_id_congr hcomp r.compound]
      cases hl : r.lap_number with
      | none => simp [resolveDriver_race_map]
      | some ln => simp [resolveDriver_race_map]

end F1

namespace F1

theorem prepRows_ext (today : String) : ∀ (rows : List CsvLapRow) (st : PrepState),
    dimsExt st.dims (prepRows today st rows).1.dims := by
  intro rows
  induction rows with
  | nil => intro st; exact dimsExt_refl _
  | cons r rest ih =>
    intro st
    exact dimsExt_trans (processRow_ext today st r) (ih (processRow today st r).1)

theorem prepRows_replay (today today2 : String) : ∀ (rows : List CsvLapRow)
    (st : PrepState) (D : Dims),
    dimsExt (prepRows today st rows).1.dims D →
    prepRows today2 { dims := D, race_map := st.race_map, driver_map := st.driver_map } rows
      = ({ dims := D, race_map := (prepRows today st rows).1.race_map,
           driver_map := (prepRows today st rows).1.driver_map },
         (prepRows today st rows).2.1, (prepRows today st rows).2.2) := by
  intro rows
  induction rows with
  | nil => intro st D h; rfl
  | cons r rest ih =>
    intro st D h
    have h' : dimsExt (prepRows today (processRow today st r).1 rest).1.dims D := h
    have hext1 : dimsExt (processRow today st r).1.dims D :=
      dimsExt_trans (prepRows_ext today rest (processRow today st r).1) h'
    show (prepRows today2 _ (r :: rest)) = _
    unfold prepRows
    dsimp only
    rw [processRow_replay today today2 st r D hext1]
    rw [ih (processRow today st r).1 D h']

end F1

namespace F1

theorem prepRows_cons (today : String) (st : PrepState) (r : CsvLapRow)
    (rest : List CsvLapRow) :
    prepRows today st (r :: rest)
      = ((prepRows today (processRow today st r).1 rest).1,
         ((processRow today st r).2.map Prod.fst).toList
           ++ (prepRows today (processRow today st r).1 rest).2.1,
         ((processRow today st r).2.bind Prod.snd).toList
           ++ (prepRows today (processRow today st r).1 rest).2.2) := rfl

theorem prepRows_append (today : String) : ∀ (a b : List CsvLapRow) (st : PrepState),
    prepRows today st (a ++ b)
      = ((prepRows today (prepRows today st a).1 b).1,
         (prepRows today st a).2.1 ++ (prepRows today (prepRows today st a).1 b).2.1,
         (prepRows today st a).2.2 ++ (prepRows today (prepRows today st a).1 b).2.2) := by
  intro a
  induction a with
  | nil => intro b st; rfl
  | cons r a ih =>
    intro b st
    rw [List.cons_append, prepRows_cons, ih b (processRow today st r).1, prepRows_cons]
    simp [List.append_assoc]

theorem insertLapList_append (L : List LapTimeRow) (a b : List LapTimeRow) :
    insertLapList L (a ++ b) = insertLapList (insertLapList L a) b :=
  List.foldl_append _ _ _ _

theorem insertWeatherList_append (L : List WeatherRow) (a b : List WeatherRow) :
    insertWeatherList L (a ++ b) = insertWeatherList (insertWeatherList L a) b :=
  List.foldl_append _ _ _ _

theorem insertLapRowList_any_mono {L : List LapTimeRow} {t : LapTimeRow}
    (h : L.any (lapKeyMatches t) = true) (u : LapTimeRow) :
    (insertLapRowList L u).any (lapKeyMatches t) = true := by
  unfold insertLapRowList
  split
  · exact h
  · simp [List.any_append, h]

theorem insertLapList_any_mono {L : List LapTimeRow} {t : LapTimeRow}
    (h : L.any (lapKeyMatches t) = true) : ∀ (ts : List LapTimeRow),
    (insertLapList L ts).any (lapKeyMatches t) = true := by
  intro ts
  induction ts generalizing L with
  | nil => exact h
  | cons u ts ih => exact ih (insertLapRowList_any_mono h u)

theorem lapKeyMatches_self (t : LapTimeRow) : lapKeyMatches t t = true := by
  simp [lapKeyMatches]

theorem insertLapList_key_mem {ts : List LapTimeRow} {t : LapTimeRow} (ht : t ∈ ts) :
    ∀ (L : List LapTimeRow), (insertLapList L ts).any (lapKeyMatches t) = true := by
  induction ts with
  | nil => cases ht
  | cons u ts ih =>
    intro L
    rcases List.mem_cons.mp ht with rfl | ht
    · have hu : (insertLapRowList L t).any (lapKeyMatches t) = true := by
        unfold insertLapRowList
        split
        · assumption
        · simp [List.any_append, lapKeyMatches_self]
      exact insertLapList_any_mono hu ts
    · exact ih ht _

theorem insertLapList_all_present : ∀ (ts : List LapTimeRow) (L : List LapTimeRow),
    (∀ t ∈ ts, L.any (lapKeyMatches t) = true) → insertLapList L ts = L := by
  intro ts
  induction ts with
  | nil => intro L _; rfl
  | cons u ts ih =>
    intro L h
    have hu : insertLapRowList L u = L := by
      unfold insertLapRowList
      rw [h u (List.mem_cons_self _ _)]
      rfl
    show insertLapList (insertLapRowList L u) ts = L
    rw [hu]
    exact ih L (fun t ht => h t (List.mem_cons_of_mem _ ht))

theorem insertLapList_idem (L : List LapTimeRow) (ts : List LapTimeRow) :
    insertLapList (insertLapList L ts) ts = insertLapList L ts :=
  insertLapList_all_present ts _ (fun _ ht => insertLapList_key_mem ht L)

theorem chunksOfF_flatten {α : Type} (size : Nat) (hs : 0 < size) :
    ∀ (n : Nat) (l : List α), l.length ≤ n → (chunksOfF size n l).flatten = l := by
  intro n
  induction n with
  | zero =>
    intro l hl
    cases l with
    | nil => rfl
    | cons x xs => simp at hl
  | succ n ih =>
    intro l hl
    cases l with
    | nil => rfl
    | cons x xs =>
      show (((x :: xs).take size) :: chunksOfF size n ((x :: xs).drop size)).flatten = _
      rw [List.flatten_cons]
      rw [ih ((x :: xs).drop size) (by simp at hl ⊢; omega)]
      exact List.take_append_drop _ _

end F1

namespace F1

theorem loadChunksF_noFail (today : String) : ∀ (cs : List (List CsvLapRow)) (k : Nat)
    (st : PrepState) (facts : Facts) (tot : Nat),
    loadChunksF (fun _ => false) today k st facts tot cs
      = (k + cs.length,
         (prepRows today st cs.flatten).1,
         insertWeatherBatch
           (insertLapBatch facts (prepRows today st cs.flatten).2.1)
           (prepRows today st cs.flatten).2.2,
         tot + (prepRows today st cs.flatten).2.1.length,
         false) := by
  intro cs
  induction cs with
  | nil =>
    intro k st facts tot
    show (k, st, facts, tot, false) = _
    simp [prepRows, insertLapBatch, insertWeatherBatch, insertLapList, insertWeatherList]
  | cons c cs ih =>
    intro k st facts tot
    show loadChunksF (fun _ => false) today (k + 1) (prepRows today st c).1
        (insertWeatherBatch (insertLapBatch facts (prepRows today st c).2.1)
          (prepRows today st c).2.2)
        (tot + (prepRows today st c).2.1.length) cs = _
    rw [ih]
    rw [List.flatten_cons, prepRows_append today c cs.flatten st]
    simp only [insertLapBatch, insertWeatherBatch, insertLapList_append,
      insertWeatherList_append, List.length_cons, List.length_append, Prod.mk.injEq]
    and_intros <;> first | trivial | omega

/-- `load_lap_data_from_csv` in flat form: prepare every row in order
(dimension creation included), then apply the lap batch and the weather
batch to the fact side; `total_inserted` is the number of prepared lap
tuples. -/
theorem load_lap_eq (today : String) (db : DB) (rows : List CsvLapRow) :
    load_lap_data_from_csv today db rows
      = ({ dims := (prepRows today
              { dims := db.dims, race_map := [], driver_map := [] } rows).1.dims,
           facts := insertWeatherBatch
             (insertLapBatch db.facts
               (prepRows today
                 { dims := db.dims, race_map := [], driver_map := [] } rows).2.1)
             (prepRows today
               { dims := db.dims, race_map := [], driver_map := [] } rows).2.2 },
         { rows_read := rows.length,
           total_inserted := (prepRows today
             { dims := db.dims, race_map := [], driver_map := [] } rows).2.1.length }) := by
  unfold load_lap_data_from_csv load_lap_file_fallible
  rw [loadChunksF_noFail]
  rw [chunksOfF_flatten 1000 (by omega) rows.length rows (le_refl _)]
  simp

/-- C5.  Loading the same lap interchange file twice — the second time into
the store produced by the first load — leaves the persisted lap-fact table
exactly as after the first load (same row set, same count): the second
run's tuples all hit the `ON CONFLICT (race_id, driver_id, lap_number)
DO NOTHING` clause, because inserting a row whose logical key is already
present is a silent no-op (first write wins). -/
theorem c5_load_idempotent :
    (∀ (db : DB) (rows : List CsvLapRow) (t1 t2 : String),
      (load_lap_data_from_csv t2 (load_lap_data_from_csv t1 db rows).1 rows).1.facts.lap_times
        = (load_lap_data_from_csv t1 db rows).1.facts.lap_times
      ∧ (load_lap_data_from_csv t2
            (load_lap_data_from_csv t1 db rows).1 rows).1.facts.lap_times.length
          = (load_lap_data_from_csv t1 db rows).1.facts.lap_times.length)
  ∧ (∀ (L : List LapTimeRow) (t : LapTimeRow),
      L.any (lapKeyMatches t) = true → insertLapRowList L t = L) := by
  constructor
  · intro db rows t1 t2
    rw [load_lap_eq t1 db rows, load_lap_eq t2 _ rows]
    have hrep := prepRows_replay t1 t2 rows
      { dims := db.dims, race_map := [], driver_map := [] }
      (prepRows t1 { dims := db.dims, race_map := [], driver_map := [] } rows).1.dims
      (dimsExt_refl _)
    dsimp only at hrep ⊢
    rw [hrep]
    dsimp only [insertWeatherBatch, insertLapBatch]
    rw [insertLapList_idem]
    exact ⟨rfl, rfl⟩
  · intro L t h
    unfold insertLapRowList
    rw [h]
    rfl

/-- Witness for C5: the no-op clause applied to a table already holding
the inserted row's key. -/
theorem c5_load_idempotent_witness :
    insertLapRowList [c10Fact] c10Fact = [c10Fact] :=
  c5_load_idempotent.2 [c10Fact] c10Fact (by decide)

end F1

namespace F1

theorem prepRows_lap_length_le (today : String) : ∀ (rows : List CsvLapRow) (st : PrepState),
    (prepRows today st rows).2.1.length ≤ rows.length := by
  intro rows
  induction rows with
  | nil => intro st; exact le_refl _
  | cons r rest ih =>
    intro st
    rw [prepRows_cons]
    simp only [List.length_append, List.length_cons]
    have h1 : ((processRow today st r).2.map Prod.fst).toList.length ≤ 1 := by
      cases (processRow today st r).2 <;> simp
    have h2 := ih (processRow today st r).1
    omega

/-- One synthetic lap row for the 12-record end-to-end example. -/
def mkC9Row (rnd : Nat) (drv : String) (lapn : Option Nat) (t : ℚ) : CsvLapRow :=
  { year := some 2023, race_round := some rnd,
    race_name := if rnd = 1 then "Bahrain Grand Prix" else "Saudi Arabian Grand Prix",
    circuit_name := if rnd = 1 then "Sakhir" else "Jeddah",
    country := if rnd = 1 then "Bahrain" else "Saudi Arabia",
    driver := drv, driver_number := some 1, team := "Team",
    lap_number := lapn, lap_time_seconds := some t,
    sector1_time_seconds := none, sector2_time_seconds := none,
    sector3_time_seconds := none, compound := none, tyre_life := some 1,
    stint := some 1, fresh_tyre := some false, track_status := some "1",
    is_personal_best := some false, is_accurate := some true, air_temp := none,
    track_temp := none, humidity := none, rainfall := none, wind_speed := none }

/-- 2 races × 2 drivers × 3 laps of synthetic records, with one
deliberately malformed row (absent lap_number on HAM's second Bahrain
lap). -/
def c9Rows : List CsvLapRow :=
  [ mkC9Row 1 "VER" (some 1) 90, mkC9Row 1 "VER" (some 2) 91, mkC9Row 1 "VER" (some 3) 92,
    mkC9Row 1 "HAM" (some 1) 90, mkC9Row 1 "HAM" none 91, mkC9Row 1 "HAM" (some 3) 92,
    mkC9Row 2 "VER" (some 1) 93, mkC9Row 2 "VER" (some 2) 94, mkC9Row 2 "VER" (some 3) 95,
    mkC9Row 2 "HAM" (some 1) 93, mkC9Row 2 "HAM" (some 2) 94, mkC9Row 2 "HAM" (some 3) 95 ]

/-- C9 counterexample.  The loader keeps no failure counter and its summary
does not report the persisted count: re-loading the same 12-record file
into the store it produced still logs `total_inserted = 11`, although the
lap-fact table does not grow at all — the reported count is the number of
prepared rows, not of persisted rows, and no failure figure appears in any
summary (the run's summary carries only `rows_read` and `total_inserted`). -/
theorem c9_counterexample :
    (load_lap_data_from_csv "2024-01-01"
        (load_lap_data_from_csv "2024-01-01" emptyDB c9Rows).1 c9Rows).2.total_inserted = 11
    ∧ (load_lap_data_from_csv "2024-01-01"
          (load_lap_data_from_csv "2024-01-01" emptyDB c9Rows).1 c9Rows).1.facts.lap_times.length
        = (load_lap_data_from_csv "2024-01-01" emptyDB c9Rows).1.facts.lap_times.length := by
  constructor <;> decide

/-- C9 amended.  A skipped row is logged with a warning but not counted;
the run's summary reports the rows read from the CSV and the number of
prepared (attempted-insert) rows.  The 12-record example persists 11 lap
rows and its summary is `rows_read = 12, total_inserted = 11`; the single
failure is observable only as the difference `rows_read − total_inserted`,
never as a reported failure count; and in every run the prepared count is
at most the rows read. -/
theorem c9_amended :
    (load_lap_data_from_csv "2024-01-01" emptyDB c9Rows).1.facts.lap_times.length = 11
    ∧ (load_lap_data_from_csv "2024-01-01" emptyDB c9Rows).2
        = { rows_read := 12, total_inserted := 11 }
    ∧ c9Rows.length
        - (load_lap_data_from_csv "2024-01-01" emptyDB c9Rows).2.total_inserted = 1
    ∧ (∀ (today : String) (db : DB) (rows : List CsvLapRow),
        (load_lap_data_from_csv today db rows).2.total_inserted
          ≤ (load_lap_data_from_csv today db rows).2.rows_read) := by
  refine ⟨by decide, by decide, by decide, fun today db rows => ?_⟩
  rw [load_lap_eq]
  exact prepRows_lap_length_le today rows _

end F1

namespace F1

/-- A second well-formed lap row with a distinct logical key. -/
def c8Row2 : CsvLapRow :=
  { c4BadTimeRow with lap_number := some 7, lap_time_seconds := some 92 }

/-- C8 counterexample.  With a persistence fault on the very first batch
write (`fail 0`), the first file's load aborts and `main`'s single
try-block re-raises: the second queued file is never processed — the whole
run halts with no summaries and no rows, even though the second file alone
would load one row.  This contradicts "loading continues with the
remaining files". -/
theorem c8_counterexample :
    mainLoadLapFiles (fun k => k == 0) "2024-01-01" 0 emptyDB [[c4GoodRow], [c8Row2]]
        = mainLoadLapFiles (fun k => k == 0) "2024-01-01" 0 emptyDB [[c4GoodRow]]
    ∧ (mainLoadLapFiles (fun k => k == 0) "2024-01-01" 0 emptyDB
        [[c4GoodRow], [c8Row2]]).1.facts.lap_times = []
    ∧ (mainLoadLapFiles (fun k => k == 0) "2024-01-01" 0 emptyDB
        [[c4GoodRow], [c8Row2]]).2.1 = []
    ∧ (mainLoadLapFiles (fun k => k == 0) "2024-01-01" 0 emptyDB
        [[c4GoodRow], [c8Row2]]).2.2 = true
    ∧ (load_lap_data_from_csv "2024-01-01" emptyDB [c8Row2]).1.facts.lap_times.length = 1 := by
  refine ⟨by decide, by decide, by decide, by decide, by decide⟩

/-- C8 amended.  When a batch write raises a PersistenceError, the failing
chunk's transaction is discarded (its rows are not persisted — see the
second clause, where a loadable row vanishes with the failed batch) and
the error propagates out of the current file's load; but `main` wraps the
whole file loop in one try, so the error aborts the entire remaining run:
the files queued after the failing one are not loaded at all. -/
theorem c8_amended :
    (∀ (fail : Nat → Bool) (today : String) (k : Nat) (db : DB)
        (f : List CsvLapRow) (fs : List (List CsvLapRow)),
      (load_lap_file_fallible fail today k db f).2.2.2 = true →
      mainLoadLapFiles fail today k db (f :: fs)
        = mainLoadLapFiles fail today k db [f])
  ∧ (load_lap_file_fallible (fun k => k == 0) "2024-01-01" 0 emptyDB
      [c4GoodRow]).2.1.facts.lap_times = [] := by
  constructor
  · intro fail today k db f fs h
    show (match load_lap_file_fallible fail today k db f with
          | (_, db', _, true) => (db', [], true)
          | (k', db', s, false) =>
            match mainLoadLapFiles fail today k' db' fs with
            | (dbF, ss, abF) => (dbF, s :: ss, abF)) = _
    rcases hres : load_lap_file_fallible fail today k db f with ⟨k', db', s, ab⟩
    rw [hres] at h
    cases ab with
    | true =>
      show _ = (match load_lap_file_fallible fail today k db f with
                | (_, db', _, true) => (db', [], true)
                | (k', db', s, false) =>
                  match mainLoadLapFiles fail today k' db' [] with
                  | (dbF, ss, abF) => (dbF, s :: ss, abF))
      rw [hres]
    | false => simp at h
  · decide

/-- Witness for the amended C8: the propagation clause at the concrete
faulty two-file run. -/
theorem c8_amended_witness :
    mainLoadLapFiles (fun k => k == 0) "2024-01-01" 0 emptyDB [[c4GoodRow], [c8Row2]]
      = mainLoadLapFiles (fun k => k == 0) "2024-01-01" 0 emptyDB [[c4GoodRow]] :=
  c8_amended.1 (fun k => k == 0) "2024-01-01" 0 emptyDB [c4GoodRow] [[c8Row2]] (by decide)

end F1
